import Mathlib

/-!
Verification development for the DDS core of the layerd_ros2_PDEVS
repository: the QoS profile data model and compatibility checker
(src/qos/policies.py, src/qos/compatibility.py), the domain participant
(src/participant.py), the discovery database (src/dds/discovery.py) and
the transport router/multiplexer (src/dds/transport.py).

Python dictionaries are embedded as association lists over `String` keys,
Python `float` durations of this code as rationals, `Optional[int]`
durations as `Option Int`, and fallible Python expressions (attribute
access on a missing attribute, comparison or arithmetic on `None`,
indexing a missing key) as `Except PyError`.  Every definition mirrors
the Python source it names; source file and line references are given in
the doc comments.
-/

/-- The Python exceptions that the embedded code can raise. -/
inductive PyError where
  | typeError
  | attributeError
  | keyError
deriving DecidableEq, Repr

/-- First-match lookup in an association list (Python `d[k]` / `d.get(k)`). -/
def alookup {α : Type} : List (String × α) → String → Option α
  | [], _ => none
  | p :: l, k => if p.1 = k then some p.2 else alookup l k

/-- Python `d[k] = v`: replace the (unique) entry for `k`, else append. -/
def aset {α : Type} : List (String × α) → String → α → List (String × α)
  | [], k, v => [(k, v)]
  | p :: l, k, v => if p.1 = k then (k, v) :: l else p :: aset l k v

/-- Python `del d[k]` (and `dict.pop`): drop every entry with key `k`. -/
def aerase {α : Type} : List (String × α) → String → List (String × α)
  | [], _ => []
  | p :: l, k => if p.1 = k then aerase l k else p :: aerase l k

theorem alookup_aset_self {α : Type} (l : List (String × α)) (k : String) (v : α) :
    alookup (aset l k v) k = some v := by
  induction l with
  | nil => simp [aset, alookup]
  | cons p l ih =>
    by_cases h : p.1 = k
    · simp [aset, alookup, h]
    · simp [aset, alookup, h, ih]

theorem alookup_aset_ne {α : Type} (l : List (String × α)) (k k' : String) (v : α)
    (h : k' ≠ k) : alookup (aset l k v) k' = alookup l k' := by
  have hk : k ≠ k' := fun hh => h hh.symm
  induction l with
  | nil =>
    show alookup [(k, v)] k' = alookup [] k'
    simp [alookup, hk]
  | cons p l ih =>
    by_cases hp : p.1 = k
    · show alookup (if p.1 = k then (k, v) :: l else p :: aset l k v) k' = _
      rw [if_pos hp]
      show (if k = k' then some v else alookup l k') = _
      rw [if_neg hk]
      show _ = (if p.1 = k' then some p.2 else alookup l k')
      rw [if_neg (hp ▸ hk : p.1 ≠ k')]
    · show alookup (if p.1 = k then (k, v) :: l else p :: aset l k v) k' = _
      rw [if_neg hp]
      show (if p.1 = k' then some p.2 else alookup (aset l k v) k') =
        (if p.1 = k' then some p.2 else alookup l k')
      rw [ih]

theorem alookup_aerase_self {α : Type} (l : List (String × α)) (k : String) :
    alookup (aerase l k) k = none := by
  induction l with
  | nil => simp [aerase, alookup]
  | cons p l ih =>
    by_cases h : p.1 = k
    · simp [aerase, h, ih]
    · simp [aerase, alookup, h, ih]

theorem mem_of_mem_aerase {α : Type} {p : String × α} {l : List (String × α)}
    {k : String} (h : p ∈ aerase l k) : p ∈ l := by
  induction l with
  | nil => simp [aerase] at h
  | cons q l ih =>
    by_cases hq : q.1 = k
    · simp only [aerase, if_pos hq] at h
      exact List.mem_cons_of_mem _ (ih h)
    · simp only [aerase, if_neg hq, List.mem_cons] at h
      rcases h with h | h
      · exact h ▸ List.mem_cons_self _ _
      · exact List.mem_cons_of_mem _ (ih h)

theorem mem_of_mem_aset {α : Type} {p : String × α} {l : List (String × α)}
    {k : String} {v : α} (h : p ∈ aset l k v) : p = (k, v) ∨ p ∈ l := by
  induction l with
  | nil => simp [aset] at h; exact Or.inl h
  | cons q l ih =>
    by_cases hq : q.1 = k
    · simp only [aset, if_pos hq, List.mem_cons] at h
      rcases h with h | h
      · exact Or.inl h
      · exact Or.inr (List.mem_cons_of_mem _ h)
    · simp only [aset, if_neg hq, List.mem_cons] at h
      rcases h with h | h
      · exact Or.inr (h ▸ List.mem_cons_self _ _)
      · rcases ih h with h' | h'
        · exact Or.inl h'
        · exact Or.inr (List.mem_cons_of_mem _ h')

theorem alookup_isSome_of_mem {α : Type} {l : List (String × α)} {k : String}
    {v : α} (h : (k, v) ∈ l) : (alookup l k).isSome := by
  induction l with
  | nil => simp at h
  | cons p l ih =>
    rcases List.mem_cons.mp h with h' | h'
    · simp [alookup, ← h']
    · by_cases hp : p.1 = k
      · simp [alookup, hp]
      · simp only [alookup, if_neg hp]
        exact ih h'

theorem alookup_aerase_of_none {α : Type} {l : List (String × α)} {k g : String}
    (h : alookup l k = none) : alookup (aerase l g) k = none := by
  induction l with
  | nil => simp [aerase, alookup]
  | cons p l ih =>
    by_cases hp : p.1 = k
    · simp [alookup, hp] at h
    · simp only [alookup, if_neg hp] at h
      by_cases hg : p.1 = g
      · simp only [aerase, if_pos hg]
        exact ih h
      · simp only [aerase, if_neg hg, alookup, if_neg hp]
        exact ih h

/-! ## QoS policy enums and profile — src/qos/policies.py

This is the `QoSProfile` class that `src/qos/compatibility.py` and
`src/participant.py` actually bind: both import it through
`from core import QoSProfile` (re-exported by src/core/__init__.py from
qos.policies) and compatibility.py additionally star-imports
`qos.policies`.  Its duration fields are `Optional[int]` (nanoseconds,
default None) and it declares *no* partition field. -/

/-- src/qos/policies.py lines 10-13. -/
inductive QoSReliabilityPolicy where
  | RELIABLE
  | BEST_EFFORT
deriving DecidableEq, Repr

/-- The `.value` string of each member (lowercase in qos/policies.py). -/
def QoSReliabilityPolicy.value : QoSReliabilityPolicy → String
  | .RELIABLE => "reliable"
  | .BEST_EFFORT => "best_effort"

/-- src/qos/policies.py lines 16-21. -/
inductive QoSDurabilityPolicy where
  | VOLATILE
  | TRANSIENT_LOCAL
  | TRANSIENT
  | PERSISTENT
deriving DecidableEq, Repr

/-- The `.value` string of each member (lowercase in qos/policies.py). -/
def QoSDurabilityPolicy.value : QoSDurabilityPolicy → String
  | .VOLATILE => "volatile"
  | .TRANSIENT_LOCAL => "transient_local"
  | .TRANSIENT => "transient"
  | .PERSISTENT => "persistent"

/-- src/qos/policies.py lines 24-27. -/
inductive QoSHistoryPolicy where
  | KEEP_LAST
  | KEEP_ALL
deriving DecidableEq, Repr

/-- src/qos/policies.py lines 30-34: note the members are AUTOMATIC,
MANUAL_BY_NODE and MANUAL_BY_TOPIC — there is no MANUAL_BY_PARTICIPANT. -/
inductive QoSLivelinessPolicy where
  | AUTOMATIC
  | MANUAL_BY_NODE
  | MANUAL_BY_TOPIC
deriving DecidableEq, Repr

/-- Python attribute access `QoSLivelinessPolicy.<name>` on the enum class
of qos/policies.py: a missing member name raises AttributeError. -/
def QoSLivelinessPolicy.member : String → Except PyError QoSLivelinessPolicy
  | "AUTOMATIC" => .ok .AUTOMATIC
  | "MANUAL_BY_NODE" => .ok .MANUAL_BY_NODE
  | "MANUAL_BY_TOPIC" => .ok .MANUAL_BY_TOPIC
  | _ => .error .attributeError

/-- src/qos/policies.py lines 37-40. -/
inductive QoSOwnershipPolicy where
  | SHARED
  | EXCLUSIVE
deriving DecidableEq, Repr

/-- src/qos/policies.py lines 43-56 (`QoSProfile` dataclass).  The three
duration fields are `Optional[int]` nanoseconds, default `None`; the class
has no `partition` and no `max_samples` field. -/
structure QoSProfile where
  reliability : QoSReliabilityPolicy := .RELIABLE
  durability : QoSDurabilityPolicy := .VOLATILE
  history : QoSHistoryPolicy := .KEEP_LAST
  depth : Int := 10
  liveliness : QoSLivelinessPolicy := .AUTOMATIC
  ownership : QoSOwnershipPolicy := .SHARED
  deadline : Option Int := none
  lifespan : Option Int := none
  liveliness_lease_duration : Option Int := none
deriving DecidableEq, Repr

/-- Python attribute access `profile.partition`: the QoSProfile dataclass
of src/qos/policies.py declares no such field, so the access raises
AttributeError (reached from src/participant.py line 479 and
src/qos/compatibility.py line 170). -/
def QoSProfile.getPartition (_p : QoSProfile) : Except PyError (List String) :=
  .error .attributeError

/-- Python attribute access `profile.max_samples`: no such field on the
QoSProfile of src/qos/policies.py (reached from
src/qos/compatibility.py line 229). -/
def QoSProfile.getMaxSamples (_p : QoSProfile) : Except PyError Int :=
  .error .attributeError

/-- Python `a <= b` on two `Optional[int]` values: TypeError if either is
None. -/
def pyLeOptInt : Option Int → Option Int → Except PyError Bool
  | some a, some b => .ok (decide (a ≤ b))
  | _, _ => .error .typeError

/-- Python `a > b` on two `Optional[int]` values: TypeError if either is
None. -/
def pyGtOptInt : Option Int → Option Int → Except PyError Bool
  | some a, some b => .ok (decide (a > b))
  | _, _ => .error .typeError

/-! ## QoS compatibility checker — src/qos/compatibility.py -/

/-- src/qos/compatibility.py lines 13-18 (warnings and the incompatible
policy list; `get_error_message` is reporting glue and is not modeled). -/
structure QoSCompatibilityResult where
  compatible : Bool
  incompatible_policies : List String
  warnings : List String
deriving DecidableEq, Repr

/-- src/qos/compatibility.py lines 90-97 (`_check_reliability`). -/
def QoSCompatibilityChecker.check_reliability (pub sub : QoSProfile) : Bool :=
  if sub.reliability = .RELIABLE then pub.reliability = .RELIABLE else true

/-- src/qos/compatibility.py lines 102-107: the durability level table,
keyed by the enum members themselves (all four exist in qos/policies.py). -/
def durability_level : QoSDurabilityPolicy → Int
  | .VOLATILE => 0
  | .TRANSIENT_LOCAL => 1
  | .TRANSIENT => 2
  | .PERSISTENT => 3

/-- src/qos/compatibility.py lines 99-113 (`_check_durability`). -/
def QoSCompatibilityChecker.check_durability (pub sub : QoSProfile) : Bool :=
  durability_level pub.durability ≥ durability_level sub.durability

/-- src/qos/compatibility.py lines 115-119 (`_check_deadline`):
`pub.deadline <= sub.deadline` on `Optional[int]` values. -/
def QoSCompatibilityChecker.check_deadline (pub sub : QoSProfile) :
    Except PyError Bool :=
  pyLeOptInt pub.deadline sub.deadline

/-- src/qos/compatibility.py lines 121-126 (`_check_lifespan`):
`pub.lifespan >= sub.lifespan * 0.9` — a 10 percent tolerance.  The float
literal 0.9 is embedded as the rational 9/10; `None` on either side makes
the Python expression raise TypeError. -/
def QoSCompatibilityChecker.check_lifespan (pub sub : QoSProfile) :
    Except PyError Bool :=
  match pub.lifespan, sub.lifespan with
  | some a, some b => .ok (decide ((a : ℚ) ≥ (b : ℚ) * (9 / 10)))
  | _, _ => .error .typeError

/-- src/qos/compatibility.py lines 130-135: the liveliness level dict is
written with key `QoSLivelinessPolicy.MANUAL_BY_PARTICIPANT`, a member the
enum bound in this module (from qos/policies.py) does not have, so
building the dict raises AttributeError on every call. -/
def liveliness_levels : Except PyError (List (QoSLivelinessPolicy × Int)) := do
  let a ← QoSLivelinessPolicy.member "AUTOMATIC"
  let b ← QoSLivelinessPolicy.member "MANUAL_BY_TOPIC"
  let c ← QoSLivelinessPolicy.member "MANUAL_BY_PARTICIPANT"
  return [(a, 0), (b, 1), (c, 2)]

/-- Python `dict.get(k, 0)` on the liveliness level dict. -/
def liveliness_level_get (lvls : List (QoSLivelinessPolicy × Int))
    (k : QoSLivelinessPolicy) : Int :=
  match lvls.find? (fun p => p.1 = k) with
  | some p => p.2
  | none => 0

/-- src/qos/compatibility.py lines 128-145 (`_check_liveliness`). -/
def QoSCompatibilityChecker.check_liveliness (pub sub : QoSProfile) :
    Except PyError Bool := do
  let lvls ← liveliness_levels
  let pub_level := liveliness_level_get lvls pub.liveliness
  let sub_level := liveliness_level_get lvls sub.liveliness
  if pub_level < sub_level then
    return false
  pyLeOptInt pub.liveliness_lease_duration sub.liveliness_lease_duration

/-- src/qos/compatibility.py lines 147-158 (`_check_history`). -/
def QoSCompatibilityChecker.check_history (pub sub : QoSProfile) : Bool :=
  if sub.history = .KEEP_ALL then pub.history = .KEEP_ALL
  else if pub.history = .KEEP_LAST ∧ sub.history = .KEEP_LAST then
    pub.depth ≥ sub.depth
  else true

/-- src/qos/compatibility.py lines 160-164 (`_check_ownership`). -/
def QoSCompatibilityChecker.check_ownership (pub sub : QoSProfile) : Bool :=
  pub.ownership = sub.ownership

/-- src/qos/compatibility.py lines 185-200 (`_partition_matches`): exact
string equality without wildcards, else a prefix/suffix glob on the first
and last fragment of the pattern split on the star character. -/
def QoSCompatibilityChecker.partition_matches (pattern name : String) : Bool :=
  if ¬ pattern.contains '*' ∧ ¬ name.contains '*' then pattern = name
  else if pattern.contains '*' then
    let parts := pattern.splitOn "*"
    let first := parts.headD ""
    let last := parts.getLastD ""
    (first = "" ∨ name.startsWith first) ∧ (last = "" ∨ name.endsWith last)
  else false

/-- src/qos/compatibility.py lines 166-183 (`_check_partition`): the very
first step reads `pub.partition`, an attribute the QoSProfile of
qos/policies.py does not have, so the check raises AttributeError. -/
def QoSCompatibilityChecker.check_partition (pub sub : QoSProfile) :
    Except PyError Bool := do
  let pp ← pub.getPartition
  let sp ← sub.getPartition
  if pp = [] ∧ sp = [] then
    return true
  let pub_partitions := if pp = [] then [""] else pp
  let sub_partitions := if sp = [] then [""] else sp
  return pub_partitions.any (fun a =>
    sub_partitions.any (fun b => QoSCompatibilityChecker.partition_matches a b))

/-- src/qos/compatibility.py lines 202-235 (`_generate_warnings`); the
warning strings are abbreviated, only their presence matters.  The first
comparison `pub.deadline > sub.deadline * 0.8` raises TypeError on `None`
durations, and the `pub.max_samples` access at line 229 raises
AttributeError on the QoSProfile of qos/policies.py. -/
def QoSCompatibilityChecker.generate_warnings (pub sub : QoSProfile) :
    Except PyError (List String) := do
  let w1 ← match pub.deadline, sub.deadline with
    | some a, some b => pure ((a : ℚ) > (b : ℚ) * (8 / 10) : Bool)
    | _, _ => Except.error PyError.typeError
  let warns1 := if w1 then ["deadline close to subscriber deadline"] else []
  let warns2 := if pub.history = .KEEP_LAST ∧ pub.depth < 5 then
      warns1 ++ ["history depth very small"] else warns1
  let w3 ← match pub.lifespan, pub.deadline with
    | some a, some b => pure ((a : ℚ) < (b : ℚ) * 2 : Bool)
    | _, _ => Except.error PyError.typeError
  let warns3 := if w3 then warns2 ++ ["lifespan less than 2x deadline"] else warns2
  let ms ← pub.getMaxSamples
  let warns4 := if ms < pub.depth * 2 then
      warns3 ++ ["max samples close to history depth"] else warns3
  return warns4

/-- src/qos/compatibility.py lines 38-88 (`check_compatibility`): runs the
eight per-policy checks in source order, collecting the names of failing
dimensions; compatible iff that list is empty. -/
def QoSCompatibilityChecker.check_compatibility (pub sub : QoSProfile) :
    Except PyError QoSCompatibilityResult := do
  let inc1 : List String :=
    if QoSCompatibilityChecker.check_reliability pub sub then [] else ["reliability"]
  let inc2 :=
    if QoSCompatibilityChecker.check_durability pub sub then inc1
    else inc1 ++ ["durability"]
  let d ← QoSCompatibilityChecker.check_deadline pub sub
  let inc3 := if d then inc2 else inc2 ++ ["deadline"]
  let lf ← QoSCompatibilityChecker.check_lifespan pub sub
  let inc4 := if lf then inc3 else inc3 ++ ["lifespan"]
  let lv ← QoSCompatibilityChecker.check_liveliness pub sub
  let inc5 := if lv then inc4 else inc4 ++ ["liveliness"]
  let inc6 :=
    if QoSCompatibilityChecker.check_history pub sub then inc5
    else inc5 ++ ["history"]
  let inc7 :=
    if QoSCompatibilityChecker.check_ownership pub sub then inc6
    else inc6 ++ ["ownership"]
  let pt ← QoSCompatibilityChecker.check_partition pub sub
  let inc8 := if pt then inc7 else inc7 ++ ["partition"]
  let warns ← QoSCompatibilityChecker.generate_warnings pub sub
  return { compatible := inc8.isEmpty, incompatible_policies := inc8,
           warnings := warns }

/-! ## Discovery data classes — src/dds/discovery.py lines 13-41 -/

/-- src/dds/discovery.py lines 13-19 (`ParticipantInfo`). -/
structure ParticipantInfo where
  guid : String
  domain_id : Int
  lease_expiry : ℚ
  vendor_id : String := "ROS2_DEVS"
deriving DecidableEq, Repr

/-- src/dds/discovery.py lines 22-31 (`EndpointInfo`): note the default
`participant_guid = ""`. -/
structure EndpointInfo where
  guid : String
  participant_guid : String := ""
  topic : String := ""
  type_name : String := ""
  kind : String := ""
  qos : QoSProfile := {}
  partition : List String := []
deriving DecidableEq, Repr

/-- src/dds/discovery.py lines 34-41 (`DiscoveryMessage`). -/
structure DiscoveryMessage where
  participant_guid : String
  domain_id : Int
  endpoints : List EndpointInfo
  lease_duration : ℚ
  timestamp : ℚ := 0
deriving DecidableEq, Repr

/-! ## Domain participant — src/participant.py

The participant's `self.state` dict (lines 60-73) and the operations the
claims are about.  Python dicts become association lists, sets become
duplicate-free lists, wall-clock reads (`time.time()`) become an explicit
`now` argument, and the trace-logger calls (pure observers) are dropped. -/

/-- src/participant.py lines 28-33 (`DataWriter`). -/
structure DataWriter where
  guid : String
  qos : QoSProfile := {}
  topic_name : String := ""
  type_name : String := ""
  partition : List String := []
deriving DecidableEq, Repr

/-- src/participant.py lines 36-42 (`DataReader`); the `callback` field is
an opaque Python callable and is not part of the state the modeled
operations read, so it is omitted. -/
structure DataReader where
  guid : String
  qos : QoSProfile := {}
  topic_name : String := ""
  type_name : String := ""
  partition : List String := []
deriving DecidableEq, Repr

/-- The participant phase strings of src/participant.py. -/
inductive Phase where
  | initializing
  | active
  | discovering
  | heartbeat
  | sending_data
deriving DecidableEq, Repr

/-- The `dds_msg` dict built in `write_data` (src/participant.py lines
315-321); `data` is the opaque payload. -/
structure DDSDataMessage where
  writer_guid : String
  sequence_number : Int
  topic : String
  data : String
  timestamp : ℚ
deriving DecidableEq, Repr

/-- The `self.state` dict of src/participant.py lines 60-73.
`pending_discoveries` is declared there but never used by the modeled
operations. -/
structure ParticipantState where
  phase : Phase := .initializing
  inited : Bool := false
  discovered_participants : List (String × ParticipantInfo) := []
  discovered_endpoints : List (String × EndpointInfo) := []
  local_writers : List (String × List DataWriter) := []
  local_readers : List (String × List DataReader) := []
  matched_endpoints : List (String × List String) := []
  pending_messages : List DDSDataMessage := []
  last_discovery_time : ℚ := 0
  last_heartbeat_time : ℚ := 0
  sequence_numbers : List (String × Int) := []
deriving DecidableEq, Repr

/-- The configuration the participant constructor reads
(src/participant.py lines 51-86): guid, domain id, periods and lease
duration.  With the defaults of src/simulation/config.py,
discovery_period = 100 ms, heartbeat_period = 100 ms, lease = 10 s. -/
structure ParticipantCfg where
  participant_guid : String
  domain_id : Int := 0
  discovery_period : ℚ := 1 / 10
  heartbeat_period : ℚ := 1 / 10
  lease_duration : ℚ := 10
deriving DecidableEq, Repr

/-- A time-advance value: a finite delay in seconds, or INFINITY. -/
inductive Dur where
  | fin (q : ℚ)
  | inf
deriving DecidableEq, Repr

/-- src/participant.py lines 459-466: `_qos_match`'s durability table is
keyed by the *uppercase* `.value` strings, but the enum values of
qos/policies.py are lowercase, so `dict.get(value, 0)` always falls back
to the default 0. -/
def qos_match_durability_levels : List (String × Int) :=
  [("VOLATILE", 0), ("TRANSIENT_LOCAL", 1), ("TRANSIENT", 2), ("PERSISTENT", 3)]

/-- src/participant.py lines 451-484 (`_qos_match`): the reduced
writer/reader check used by endpoint matching.  Reliability compares the
lowercase `.value` strings against uppercase literals (lines 456-457),
durability goes through the uppercase-keyed table above, the deadline
comparison is on `Optional[int]` values (TypeError when either is None,
line 475), and line 479 reads `writer_qos.partition`, an attribute the
QoSProfile of qos/policies.py does not have (AttributeError). -/
def DDSParticipant.qos_match (writer_qos reader_qos : QoSProfile) :
    Except PyError Bool :=
  if reader_qos.reliability.value = "RELIABLE" ∧
      writer_qos.reliability.value = "BEST_EFFORT" then
    .ok false
  else
    let writer_level :=
      (alookup qos_match_durability_levels writer_qos.durability.value).getD 0
    let reader_level :=
      (alookup qos_match_durability_levels reader_qos.durability.value).getD 0
    if reader_level > writer_level then
      .ok false
    else
      match pyGtOptInt writer_qos.deadline reader_qos.deadline with
      | .error e => .error e
      | .ok true => .ok false
      | .ok false =>
        match writer_qos.getPartition with
        | .error e => .error e
        | .ok wp =>
          match reader_qos.getPartition with
          | .error e => .error e
          | .ok rp =>
            if wp ≠ [] ∧ rp ≠ [] then
              if wp.filter (fun x => x ∈ rp) = [] then .ok false
              else .ok true
            else .ok true

/-- src/participant.py lines 417-419 and 437-439: the Match Table insert.
`if guid not in matched: matched[guid] = set()` then
`matched[guid].add(remote_guid)`; only the local endpoint's entry is
written. -/
def DDSParticipant.add_match (st : ParticipantState)
    (local_guid remote_guid : String) : ParticipantState :=
  let cur := (alookup st.matched_endpoints local_guid).getD []
  let cur' := if remote_guid ∈ cur then cur else cur ++ [remote_guid]
  { st with matched_endpoints := aset st.matched_endpoints local_guid cur' }

/-- The reader loop of `_check_endpoint_matching`
(src/participant.py lines 413-429): a raised exception aborts the loop. -/
def DDSParticipant.match_readers (rem : EndpointInfo) :
    ParticipantState → List DataReader → Except PyError ParticipantState
  | st, [] => .ok st
  | st, r :: rs => do
    let b ← DDSParticipant.qos_match rem.qos r.qos
    let st' := if b then DDSParticipant.add_match st r.guid rem.guid else st
    DDSParticipant.match_readers rem st' rs

/-- The writer loop of `_check_endpoint_matching`
(src/participant.py lines 433-449). -/
def DDSParticipant.match_writers (rem : EndpointInfo) :
    ParticipantState → List DataWriter → Except PyError ParticipantState
  | st, [] => .ok st
  | st, w :: ws => do
    let b ← DDSParticipant.qos_match w.qos rem.qos
    let st' := if b then DDSParticipant.add_match st w.guid rem.guid else st
    DDSParticipant.match_writers rem st' ws

/-- src/participant.py lines 409-449 (`_check_endpoint_matching`). -/
def DDSParticipant.check_endpoint_matching (st : ParticipantState)
    (rem : EndpointInfo) : Except PyError ParticipantState :=
  if rem.kind = "writer" then
    match alookup st.local_readers rem.topic with
    | none => .ok st
    | some readers => DDSParticipant.match_readers rem st readers
  else if rem.kind = "reader" then
    match alookup st.local_writers rem.topic with
    | none => .ok st
    | some writers => DDSParticipant.match_writers rem st writers
  else .ok st

/-- The endpoint loop of `_process_discovery_message`
(src/participant.py lines 396-398): each endpoint is stored in
`discovered_endpoints` and then matched. -/
def DDSParticipant.process_endpoints :
    ParticipantState → List EndpointInfo → Except PyError ParticipantState
  | st, [] => .ok st
  | st, ep :: eps => do
    let st1 := { st with
      discovered_endpoints := aset st.discovered_endpoints ep.guid ep }
    let st2 ← DDSParticipant.check_endpoint_matching st1 ep
    DDSParticipant.process_endpoints st2 eps

/-- src/participant.py lines 383-407 (`_process_discovery_message`):
ignore own messages, upsert the remote ParticipantInfo with
`lease_expiry = now + lease_duration`, then store and match each
advertised endpoint. -/
def DDSParticipant.process_discovery_message (cfg : ParticipantCfg)
    (st : ParticipantState) (msg : DiscoveryMessage) (now : ℚ) :
    Except PyError ParticipantState :=
  if msg.participant_guid = cfg.participant_guid then .ok st
  else
    let info : ParticipantInfo :=
      { guid := msg.participant_guid, domain_id := msg.domain_id,
        lease_expiry := now + msg.lease_duration }
    let st1 := { st with
      discovered_participants :=
        aset st.discovered_participants msg.participant_guid info }
    DDSParticipant.process_endpoints st1 msg.endpoints

/-- src/participant.py lines 337-369 (`_create_discovery_message`): the
advertised EndpointInfo records are built *without* a `participant_guid`
argument, so they carry the dataclass default `""`. -/
def DDSParticipant.create_discovery_message (cfg : ParticipantCfg)
    (st : ParticipantState) : DiscoveryMessage :=
  let writer_eps := st.local_writers.flatMap (fun p =>
    p.2.map (fun w =>
      { guid := w.guid, topic := w.topic_name, type_name := w.type_name,
        kind := "writer", qos := w.qos, partition := w.partition
        : EndpointInfo }))
  let reader_eps := st.local_readers.flatMap (fun p =>
    p.2.map (fun r =>
      { guid := r.guid, topic := r.topic_name, type_name := r.type_name,
        kind := "reader", qos := r.qos, partition := r.partition
        : EndpointInfo }))
  { participant_guid := cfg.participant_guid, domain_id := cfg.domain_id,
    endpoints := writer_eps ++ reader_eps,
    lease_duration := cfg.lease_duration }

/-- The per-expired-guid body of `cleanup_expired_participants`
(src/participant.py lines 571-583): delete the participant, collect its
endpoints by `participant_guid`, delete each and discard its guid from
every matched set. -/
def DDSParticipant.remove_expired (st : ParticipantState) (guid : String) :
    ParticipantState :=
  let st1 := { st with
    discovered_participants := aerase st.discovered_participants guid }
  let to_remove := (st1.discovered_endpoints.filter
    (fun p => p.2.participant_guid = guid)).map (fun p => p.1)
  to_remove.foldl (fun s ep_guid =>
    { s with
      discovered_endpoints := aerase s.discovered_endpoints ep_guid,
      matched_endpoints := s.matched_endpoints.map
        (fun q => (q.1, q.2.filter (fun x => x ≠ ep_guid))) }) st1

/-- src/participant.py lines 562-583 (`cleanup_expired_participants`):
`current_time = time.time()` becomes the explicit `now` argument. -/
def DDSParticipant.cleanup_expired_participants (st : ParticipantState)
    (now : ℚ) : ParticipantState :=
  let expired := (st.discovered_participants.filter
    (fun p => now > p.2.lease_expiry)).map (fun p => p.1)
  expired.foldl DDSParticipant.remove_expired st

/-- The writer search of `write_data` (src/participant.py lines 300-306):
the inner `break` leaves the outer loop running, so a writer found under a
later topic overwrites one found earlier. -/
def DDSParticipant.find_writer (lw : List (String × List DataWriter))
    (guid : String) : Option DataWriter :=
  lw.foldl (fun acc p =>
    match p.2.find? (fun w => w.guid = guid) with
    | some w => some w
    | none => acc) none

/-- src/participant.py lines 298-335 (`write_data`): returns False without
touching the state when the writer guid is unknown; otherwise the
sequence counter is read (KeyError if absent) and incremented *before*
the Match-Table check, and the message is queued only when the writer's
guid has a Match-Table entry. -/
def DDSParticipant.write_data (st : ParticipantState) (writer_guid : String)
    (data : String) (now : ℚ) : Except PyError (Bool × ParticipantState) :=
  match DDSParticipant.find_writer st.local_writers writer_guid with
  | none => .ok (false, st)
  | some w =>
    match alookup st.sequence_numbers writer_guid with
    | none => .error .keyError
    | some seq_num =>
      let st1 := { st with
        sequence_numbers := aset st.sequence_numbers writer_guid (seq_num + 1) }
      let msg : DDSDataMessage :=
        { writer_guid := writer_guid, sequence_number := seq_num,
          topic := w.topic_name, data := data, timestamp := now }
      if (alookup st1.matched_endpoints writer_guid).isSome then
        .ok (true, { st1 with
          pending_messages := st1.pending_messages ++ [msg] })
      else
        .ok (false, st1)

/-- src/participant.py lines 99-132 (`timeAdvance`): the function reads
the wall clock (`current_time = time.time()`, here the explicit `now`
argument) and assigns `self.state['phase']` in the `active` branch, so it
returns both the delay and the (possibly mutated) state. -/
def DDSParticipant.timeAdvance (cfg : ParticipantCfg) (st : ParticipantState)
    (now : ℚ) : Dur × ParticipantState :=
  match st.phase with
  | .initializing => (.fin (1 / 100), st)
  | .active =>
    let time_since_discovery := now - st.last_discovery_time
    let time_since_heartbeat := now - st.last_heartbeat_time
    if time_since_discovery ≥ cfg.discovery_period then
      (.fin (1 / 1000), { st with phase := .discovering })
    else if time_since_heartbeat ≥ cfg.heartbeat_period then
      (.fin (1 / 1000), { st with phase := .heartbeat })
    else if st.pending_messages ≠ [] then
      (.fin (1 / 10000), { st with phase := .sending_data })
    else
      (.fin (min (cfg.discovery_period - time_since_discovery)
        (cfg.heartbeat_period - time_since_heartbeat)), st)
  | .discovering => (.fin (1 / 1000), st)
  | .heartbeat => (.fin (1 / 1000), st)
  | .sending_data => (.fin (1 / 1000), st)

/-! ## Transport layer — src/dds/transport.py -/

/-- src/dds/transport.py lines 20-25 (`TransportType`). -/
inductive TransportType where
  | SHARED_MEMORY
  | UDP_MULTICAST
  | UDP_UNICAST
  | TCP
deriving DecidableEq, Repr

/-- src/core/message.py lines 11-20: the `MessageType` enum that
src/dds/transport.py imports through `from core import MessageType`.
Its members are the eight below — there is no DISCOVERY member. -/
inductive CoreMessageType where
  | DATA
  | SERVICE_REQUEST
  | SERVICE_RESPONSE
  | ACTION_GOAL
  | ACTION_RESULT
  | ACTION_FEEDBACK
  | PARAMETER
  | LIFECYCLE
deriving DecidableEq, Repr

/-- Python attribute access `MessageType.<name>` on the enum class of
src/core/message.py: a missing member name raises AttributeError. -/
def CoreMessageType.member : String → Except PyError CoreMessageType
  | "DATA" => .ok .DATA
  | "SERVICE_REQUEST" => .ok .SERVICE_REQUEST
  | "SERVICE_RESPONSE" => .ok .SERVICE_RESPONSE
  | "ACTION_GOAL" => .ok .ACTION_GOAL
  | "ACTION_RESULT" => .ok .ACTION_RESULT
  | "ACTION_FEEDBACK" => .ok .ACTION_FEEDBACK
  | "PARAMETER" => .ok .PARAMETER
  | "LIFECYCLE" => .ok .LIFECYCLE
  | _ => .error .attributeError

/-- The message attributes `_select_transport` reads
(src/dds/transport.py lines 160-175): `source_node`, `destination_node`,
`type` and `qos_profile`.  The model gives the message all four
attributes (the objects the duck-typed code receives may lack some of
them, which could only raise earlier). -/
structure Message where
  source_node : String
  destination_node : String
  type : CoreMessageType := .DATA
  qos_profile : Option QoSProfile := none
deriving DecidableEq, Repr

/-- src/dds/transport.py lines 160-175 (`TransportRouter._select_transport`).
After the same-node test the code evaluates `MessageType.DISCOVERY`; the
`MessageType` enum bound in this module (src/core/message.py) has no
DISCOVERY member, so that attribute access raises AttributeError. -/
def TransportRouter.select_transport (message : Message) :
    Except PyError TransportType := do
  if message.source_node = message.destination_node then
    return .SHARED_MEMORY
  let discovery ← CoreMessageType.member "DISCOVERY"
  if message.type = discovery then
    return .UDP_MULTICAST
  match message.qos_profile with
  | some q =>
    if q.reliability = .RELIABLE then
      return .TCP
    else
      return .UDP_UNICAST
  | none => return .UDP_UNICAST

/-- src/dds/transport.py lines 28-36 (`TransportMessage`). -/
structure TransportMessage where
  source_guid : String
  destination_guids : List String
  payload : String
  size_bytes : Int
  transport_type : TransportType
  timestamp : ℚ := 0
deriving DecidableEq, Repr

/-- The state of `SharedMemoryTransport` (src/dds/transport.py lines
39-64): the base `AtomicDEVS` leaves `self.state` unset (`pyNone`), and
`extTransition` returns the dict `(data_out, message)` — which the DEVS
kernel stores as the *new state*, not as an output. -/
inductive ShmState where
  | pyNone
  | outMap (m : TransportMessage)
deriving DecidableEq, Repr

/-- The four-operation interface of an atomic DEVS model
(spec section 4.1); an input of `none` means the input dict carries
nothing on the model's input port. -/
structure AtomicSpec (S I O : Type) where
  timeAdvance : S → Dur
  outputFnc : S → List O
  intTransition : S → S
  extTransition : S → I → S

/-- src/dds/transport.py lines 39-64 (`SharedMemoryTransport`):
`timeAdvance` returns INFINITY, `outputFnc` returns the empty dict, and
`extTransition` returns `(data_out, message)` when `data_in` carries a
message — a value the kernel assigns to `self.state`. -/
def SharedMemoryTransport : AtomicSpec ShmState (Option TransportMessage)
    TransportMessage :=
  { timeAdvance := fun _ => .inf,
    outputFnc := fun _ => [],
    intTransition := fun s => s,
    extTransition := fun s i =>
      match i with
      | some m => .outMap m
      | none => s }

/-- A kernel event for one atomic model: an external input arrives, or
the kernel considers firing the model internally. -/
inductive KEvent (I : Type) where
  | ext (i : I)
  | internal

/-- Modelled from the spec: sections 4.1-4.2 of spec.md — the simulation
kernel itself (the pypdevs package) is not under src/.  `output` is
"called only when the Model is imminent (selected to fire)", which
requires a finite time advance; an imminent firing emits `outputFnc` and
applies `intTransition`, an external event applies `extTransition` and
emits nothing.  The function returns the final state and everything the
model emitted. -/
def runAtomic {S I O : Type} (M : AtomicSpec S I O) :
    S → List (KEvent I) → S × List O
  | s, [] => (s, [])
  | s, .ext i :: rest => runAtomic M (M.extTransition s i) rest
  | s, .internal :: rest =>
    match M.timeAdvance s with
    | .inf => runAtomic M s rest
    | .fin _ =>
      let out := M.outputFnc s
      let (s', os) := runAtomic M (M.intTransition s) rest
      (s', out ++ os)

/-! ## Discovery database — src/dds/discovery.py lines 44-117 -/

/-- src/dds/discovery.py lines 47-50 (`DiscoveryDatabase.__init__`). -/
structure DiscoveryDatabase where
  participants : List (String × ParticipantInfo) := []
  endpoints : List (String × EndpointInfo) := []
  topic_cache : List (String × List String) := []
deriving DecidableEq, Repr

/-- src/dds/discovery.py lines 52-54 (`add_participant`). -/
def DiscoveryDatabase.add_participant (db : DiscoveryDatabase)
    (info : ParticipantInfo) : DiscoveryDatabase :=
  { db with participants := aset db.participants info.guid info }

/-- src/dds/discovery.py lines 56-63 (`add_endpoint`): store the endpoint
and add its guid to the topic's cache set (creating the set if needed). -/
def DiscoveryDatabase.add_endpoint (db : DiscoveryDatabase)
    (info : EndpointInfo) : DiscoveryDatabase :=
  let cache0 := (alookup db.topic_cache info.topic).getD []
  let cache1 := if info.guid ∈ cache0 then cache0 else cache0 ++ [info.guid]
  { db with
    endpoints := aset db.endpoints info.guid info,
    topic_cache := aset db.topic_cache info.topic cache1 }

/-- src/dds/discovery.py lines 79-89 (`remove_endpoint`): delete the
endpoint, discard its guid from the topic's cache set, and delete the
cache entry when the set becomes empty. -/
def DiscoveryDatabase.remove_endpoint (db : DiscoveryDatabase)
    (guid : String) : DiscoveryDatabase :=
  match alookup db.endpoints guid with
  | none => db
  | some ep_info =>
    match alookup db.topic_cache ep_info.topic with
    | none => { db with endpoints := aerase db.endpoints guid }
    | some s =>
      let s' := s.filter (fun x => x ≠ guid)
      if s' = [] then
        { db with endpoints := aerase db.endpoints guid,
                  topic_cache := aerase db.topic_cache ep_info.topic }
      else
        { db with endpoints := aerase db.endpoints guid,
                  topic_cache := aset db.topic_cache ep_info.topic s' }

/-- src/dds/discovery.py lines 65-77 (`remove_participant`): delete the
participant, then remove every endpoint whose `participant_guid` equals
the removed guid. -/
def DiscoveryDatabase.remove_participant (db : DiscoveryDatabase)
    (guid : String) : DiscoveryDatabase :=
  let db1 :=
    if (alookup db.participants guid).isSome then
      { db with participants := aerase db.participants guid }
    else db
  let to_remove := (db1.endpoints.filter
    (fun p => p.2.participant_guid = guid)).map (fun p => p.1)
  to_remove.foldl DiscoveryDatabase.remove_endpoint db1

/-- src/dds/discovery.py lines 108-117 (`cleanup_expired`). -/
def DiscoveryDatabase.cleanup_expired (db : DiscoveryDatabase)
    (current_time : ℚ) : DiscoveryDatabase :=
  let expired := (db.participants.filter
    (fun p => current_time > p.2.lease_expiry)).map (fun p => p.1)
  expired.foldl DiscoveryDatabase.remove_participant db

/-- One operation on the discovery database, for reachability. -/
inductive DbOp where
  | addP (info : ParticipantInfo)
  | addE (info : EndpointInfo)
  | remE (guid : String)
  | remP (guid : String)
  | sweep (now : ℚ)

/-- Apply one operation. -/
def DiscoveryDatabase.applyOp (db : DiscoveryDatabase) : DbOp → DiscoveryDatabase
  | .addP info => db.add_participant info
  | .addE info => db.add_endpoint info
  | .remE guid => db.remove_endpoint guid
  | .remP guid => db.remove_participant guid
  | .sweep now => db.cleanup_expired now

/-- The database reached from a fresh `DiscoveryDatabase()` by a sequence
of operations. -/
def DiscoveryDatabase.runOps (ops : List DbOp) : DiscoveryDatabase :=
  ops.foldl DiscoveryDatabase.applyOp {}

/-! ## Helper lemmas about the reduced matching check -/

/-- No member of the lowercase reliability enum has the uppercase value
the `_qos_match` comparison tests against. -/
theorem reliability_value_ne_upper (r : QoSReliabilityPolicy) :
    r.value ≠ "RELIABLE" := by
  cases r <;> decide

/-- The `_qos_match` durability table is keyed by uppercase strings, so a
lowercase `.value` never hits it: `dict.get` always returns the default. -/
theorem qos_match_durability_lookup_none (d : QoSDurabilityPolicy) :
    alookup qos_match_durability_levels d.value = none := by
  cases d <;> decide

/-- `_qos_match` never reports a match: every run either returns False at
the deadline test or raises (TypeError on a `None` deadline,
AttributeError on the missing partition attribute). -/
theorem qos_match_never_true (wq rq : QoSProfile) :
    DDSParticipant.qos_match wq rq = .ok false ∨
    (∃ e, DDSParticipant.qos_match wq rq = .error e) := by
  unfold DDSParticipant.qos_match
  rw [if_neg (fun h => reliability_value_ne_upper rq.reliability h.1)]
  rw [qos_match_durability_lookup_none, qos_match_durability_lookup_none]
  simp only [Option.getD_none]
  rw [if_neg (by decide : ¬ (0 : Int) > 0)]
  rcases hw : wq.deadline with _ | a <;> rcases hr : rq.deadline with _ | b
  · exact Or.inr ⟨.typeError, rfl⟩
  · exact Or.inr ⟨.typeError, rfl⟩
  · exact Or.inr ⟨.typeError, rfl⟩
  · by_cases hab : a > b
    · left
      simp only [pyGtOptInt, decide_eq_true hab]
    · right
      refine ⟨.attributeError, ?_⟩
      simp only [pyGtOptInt, decide_eq_false hab]
      rfl

/-! ## Claim C1 -/

/-- A local reader on topic "t" with the default QoS profile. -/
def c1_state : ParticipantState :=
  { local_readers := [("t", [{ guid := "R1", topic_name := "t" }])] }

/-- A remote writer endpoint on topic "t" with the default QoS profile. -/
def c1_endpoint : EndpointInfo :=
  { guid := "W1", topic := "t", kind := "writer" }

/-- C1: endpoint matching does not decide by the QoS Compatibility
Checker's rules.  The matching path calls the private `_qos_match`, which
can never report a match — it returns False at the deadline test or
raises (TypeError on the default `None` deadlines, AttributeError on the
missing partition attribute) — so no pair is ever entered into the Match
Table; and on the concrete default-QoS writer/reader pair both the
matching step and `check_compatibility` itself raise TypeError instead of
producing a compatibility verdict. -/
theorem claim_C1_matching_never_agrees_with_checker :
    DDSParticipant.check_endpoint_matching c1_state c1_endpoint =
      .error .typeError ∧
    QoSCompatibilityChecker.check_compatibility c1_endpoint.qos
      (({ guid := "R1", topic_name := "t" } : DataReader)).qos =
      .error .typeError ∧
    (∀ wq rq, DDSParticipant.qos_match wq rq = .ok false ∨
      ∃ e, DDSParticipant.qos_match wq rq = .error e) := by
  refine ⟨rfl, rfl, qos_match_never_true⟩

/-! ## Claim C2 -/

/-- C2 counterexample: with offered lifespan 9500 and requested lifespan
10000 the lifespan check passes (9500 ≥ 0.9 · 10000) although the offered
duration is strictly smaller than the requested one, so "passes iff
offered ≥ requested" is false. -/
theorem claim_C2_counterexample :
    QoSCompatibilityChecker.check_lifespan { lifespan := some 9500 }
      { lifespan := some 10000 } = .ok true ∧ (9500 : Int) < 10000 := by
  constructor
  · show Except.ok (decide ((9500 : ℚ) ≥ (10000 : ℚ) * (9 / 10))) = .ok true
    norm_num
  · decide

/-- C2 amended: for finite (integer) lifespans the dimension passes iff
10 · offered ≥ 9 · requested (the check allows a 10 percent tolerance,
`pub.lifespan >= sub.lifespan * 0.9`); when either lifespan is None (the
well-formed default, "unbounded") the check raises TypeError instead of
returning a verdict. -/
theorem claim_C2_amended :
    (∀ (pub sub : QoSProfile) (a b : Int),
      QoSCompatibilityChecker.check_lifespan { pub with lifespan := some a }
        { sub with lifespan := some b } = .ok true ↔ 10 * a ≥ 9 * b) ∧
    (∀ pub sub : QoSProfile,
      QoSCompatibilityChecker.check_lifespan { pub with lifespan := none }
        sub = .error .typeError) ∧
    (∀ pub sub : QoSProfile,
      QoSCompatibilityChecker.check_lifespan pub
        { sub with lifespan := none } = .error .typeError) := by
  refine ⟨?_, ?_, ?_⟩
  · intro pub sub a b
    show Except.ok (decide ((a : ℚ) ≥ (b : ℚ) * (9 / 10))) = .ok true ↔ _
    constructor
    · intro h
      have h' : ((a : ℚ) ≥ (b : ℚ) * (9 / 10)) := of_decide_eq_true
        (by exact_mod_cast congrArg (fun x : Except PyError Bool =>
          x.toOption.getD false) h)
      have h10 : (9 : ℚ) * b ≤ 10 * a := by linarith
      exact_mod_cast h10
    · intro h
      have h10 : ((9 * b : Int) : ℚ) ≤ ((10 * a : Int) : ℚ) := by
        exact_mod_cast h
      push_cast at h10
      have : (a : ℚ) ≥ (b : ℚ) * (9 / 10) := by linarith
      rw [decide_eq_true this]
  · intro pub sub
    show QoSCompatibilityChecker.check_lifespan
      { pub with lifespan := none } sub = .error .typeError
    unfold QoSCompatibilityChecker.check_lifespan
    rcases sub.lifespan with _ | b <;> rfl
  · intro pub sub
    unfold QoSCompatibilityChecker.check_lifespan
    rcases pub.lifespan with _ | a <;> rfl

/-! ## Claim C3 -/

/-- A local reader on topic "t" whose deadline is 7 (finite), so that the
reduced matching check gets past its deadline comparison. -/
def c3_state : ParticipantState :=
  { local_readers :=
      [("t", [{ guid := "R1", topic_name := "t",
                qos := { deadline := some 7 } }])] }

/-- A remote writer endpoint on topic "t" with deadline 5 ≤ 7. -/
def c3_endpoint : EndpointInfo :=
  { guid := "W1", topic := "t", kind := "writer",
    qos := { deadline := some 5 } }

/-- C3: the Match-Table insert is one-directional and the matching path
cannot reach it.  `add_match` (the insert of participant.py lines
417-419/437-439) writes only the local endpoint's entry — every other
key, in particular the remote endpoint's guid, is untouched, so a
successful insert would not give the symmetric entry the claim asserts;
and on a concrete compatible-deadline pair the matching path raises
AttributeError (missing partition attribute) before any insert, so
re-announcement never reaches the table at all. -/
theorem claim_C3_match_table_not_symmetric :
    (∀ (st : ParticipantState) (l r k : String),
      alookup (DDSParticipant.add_match st l r).matched_endpoints k =
        if k = l then
          some (if r ∈ (alookup st.matched_endpoints l).getD [] then
              (alookup st.matched_endpoints l).getD []
            else (alookup st.matched_endpoints l).getD [] ++ [r])
        else alookup st.matched_endpoints k) ∧
    DDSParticipant.check_endpoint_matching c3_state c3_endpoint =
      .error .attributeError := by
  constructor
  · intro st l r k
    by_cases hk : k = l
    · subst hk
      rw [if_pos rfl]
      exact alookup_aset_self _ _ _
    · rw [if_neg hk]
      exact alookup_aset_ne _ _ _ _ hk
  · rfl

/-! ## Claim C4 -/

/-- The remote participant "P1" (domain 0, lease 10 s) with one local
writer on topic "t". -/
def c4_remote_cfg : ParticipantCfg := { participant_guid := "P1" }

/-- The remote participant's state: one writer "W1" on topic "t". -/
def c4_remote_state : ParticipantState :=
  { local_writers :=
      [("t", [{ guid := "W1", topic_name := "t", type_name := "std" }])] }

/-- The local participant "P0" with no local endpoints. -/
def c4_local_cfg : ParticipantCfg := { participant_guid := "P0" }

/-- The endpoint record announced for W1: `participant_guid` stays at its
dataclass default "" because `_create_discovery_message` does not set it. -/
def c4_advertised_endpoint : EndpointInfo :=
  { guid := "W1", topic := "t", type_name := "std", kind := "writer" }

/-- C4: the lease sweep does not cascade.  Processing P1's own discovery
message at time 0 stores P1 (lease expiry 10) and its endpoint W1; the
endpoint record carries `participant_guid = ""` because
`_create_discovery_message` never fills that field in.  Sweeping at time
20 removes the expired participant P1 but leaves W1 in
`discovered_endpoints`, since `"" ≠ "P1"` — the advertised endpoints of
an expired participant are never removed. -/
theorem claim_C4_sweep_leaves_orphan_endpoints :
    (DDSParticipant.process_discovery_message c4_local_cfg {}
        (DDSParticipant.create_discovery_message c4_remote_cfg c4_remote_state)
        0).map
      (fun s1 =>
        ((alookup s1.discovered_participants "P1").isSome,
         (alookup s1.discovered_endpoints "W1").isSome,
         alookup (DDSParticipant.cleanup_expired_participants s1
           20).discovered_participants "P1",
         alookup (DDSParticipant.cleanup_expired_participants s1
           20).discovered_endpoints "W1")) =
    .ok (true, true, none, some c4_advertised_endpoint) := by
  norm_num [DDSParticipant.process_discovery_message,
    DDSParticipant.process_endpoints, DDSParticipant.check_endpoint_matching,
    DDSParticipant.create_discovery_message,
    DDSParticipant.cleanup_expired_participants, DDSParticipant.remove_expired,
    c4_local_cfg, c4_remote_cfg, c4_remote_state, c4_advertised_endpoint,
    alookup, aset, aerase, List.filter, Except.map, List.flatMap]
  rfl

/-! ## Claim C5 -/

/-- C5: the shared-memory transport never delivers anything.  Its
time-advance is INFINITY and its output function is empty, so under the
kernel contract (output is produced only by an imminent firing) no run of
the model — whatever messages arrive on `data_in` — ever emits a message
on `data_out`; the value `extTransition` returns is stored as the new
state, not routed as an output.  The router does classify a same-process
message into the shared-memory class, so such messages are routed to this
transport and then lost, contradicting guaranteed zero-loss delivery. -/
theorem claim_C5_shared_memory_never_delivers :
    (∀ (s : ShmState) (evs : List (KEvent (Option TransportMessage))),
      (runAtomic SharedMemoryTransport s evs).2 = []) ∧
    TransportRouter.select_transport
      { source_node := "procA", destination_node := "procA" } =
      .ok .SHARED_MEMORY := by
  constructor
  · intro s evs
    induction evs generalizing s with
    | nil => rfl
    | cons e rest ih =>
      cases e with
      | ext i => exact ih _
      | internal => exact ih s
  · rfl

/-! ## Claim C6 -/

/-- A local writer "W1" on topic "t" with sequence counter 0 and *no*
Match-Table entry. -/
def c6_state : ParticipantState :=
  { local_writers := [("t", [{ guid := "W1", topic_name := "t" }])],
    sequence_numbers := [("W1", 0)] }

/-- The state `write_data` leaves behind on the unmatched call: the
sequence counter has advanced to 1. -/
def c6_state_after : ParticipantState :=
  { local_writers := [("t", [{ guid := "W1", topic_name := "t" }])],
    sequence_numbers := [("W1", 1)] }

/-- C6 counterexample: a publish on a writer whose guid has no Match-Table
entry is *not* a state no-op — the call returns False and enqueues
nothing, but the writer's sequence counter is still incremented
(from 0 to 1), because `write_data` increments it before checking the
Match Table. -/
theorem claim_C6_counterexample :
    DDSParticipant.write_data c6_state "W1" "payload" 0 =
      .ok (false, c6_state_after) ∧
    alookup c6_state.matched_endpoints "W1" = none ∧
    alookup c6_state.sequence_numbers "W1" = some 0 ∧
    alookup c6_state_after.sequence_numbers "W1" = some 1 ∧
    c6_state_after.pending_messages = [] := by
  refine ⟨rfl, rfl, rfl, rfl, rfl⟩

/-- C6 amended: when the writer guid is unknown the call is a no-op
returning False; when the writer exists (with sequence counter `n`), the
counter is always incremented to `n + 1` — even if the Match Table has no
entry for the writer, so an unmatched publish is not a state no-op — and
the message, carrying the pre-increment sequence number `n` (hence
strictly increasing across successive publishes), is enqueued iff the
writer's guid has a Match-Table entry. -/
theorem claim_C6_amended (st : ParticipantState) (g d : String) (now : ℚ)
    (w : DataWriter) (n : Int)
    (hw : DDSParticipant.find_writer st.local_writers g = some w)
    (hn : alookup st.sequence_numbers g = some n) :
    ∃ st', DDSParticipant.write_data st g d now =
        .ok ((alookup st.matched_endpoints g).isSome, st') ∧
      alookup st'.sequence_numbers g = some (n + 1) ∧
      st'.pending_messages =
        (if (alookup st.matched_endpoints g).isSome then
          st.pending_messages ++
            [{ writer_guid := g, sequence_number := n, topic := w.topic_name,
               data := d, timestamp := now }]
        else st.pending_messages) ∧
      st'.matched_endpoints = st.matched_endpoints ∧
      st'.local_writers = st.local_writers := by
  unfold DDSParticipant.write_data
  rw [hw, hn]
  by_cases hm : (alookup st.matched_endpoints g).isSome
  · refine ⟨{ st with
        sequence_numbers := aset st.sequence_numbers g (n + 1),
        pending_messages := st.pending_messages ++
          [{ writer_guid := g, sequence_number := n, topic := w.topic_name,
             data := d, timestamp := now }] }, ?_, ?_, ?_, rfl, rfl⟩
    · show (if (alookup st.matched_endpoints g).isSome then _ else _) = _
      rw [if_pos hm, hm]
    · exact alookup_aset_self _ _ _
    · rw [if_pos hm]
  · refine ⟨{ st with
        sequence_numbers := aset st.sequence_numbers g (n + 1) }, ?_, ?_, ?_,
        rfl, rfl⟩
    · show (if (alookup st.matched_endpoints g).isSome then _ else _) = _
      rw [if_neg hm, Bool.eq_false_iff.mpr hm]
    · exact alookup_aset_self _ _ _
    · rw [if_neg hm]

/-- A matched variant of the C6 fixture: writer "W1" has a Match-Table
entry. -/
def c6_matched_state : ParticipantState :=
  { local_writers := [("t", [{ guid := "W1", topic_name := "t" }])],
    sequence_numbers := [("W1", 0)],
    matched_endpoints := [("W1", ["R9"])] }

/-- Witness for the amended C6 theorem at a concrete matched writer. -/
theorem claim_C6_amended_witness :
    ∃ st', DDSParticipant.write_data c6_matched_state "W1" "payload" 0 =
        .ok ((alookup c6_matched_state.matched_endpoints "W1").isSome, st') ∧
      alookup st'.sequence_numbers "W1" = some (0 + 1) ∧
      st'.pending_messages =
        (if (alookup c6_matched_state.matched_endpoints "W1").isSome then
          c6_matched_state.pending_messages ++
            [{ writer_guid := "W1", sequence_number := 0,
               topic := ({ guid := "W1", topic_name := "t" } : DataWriter).topic_name,
               data := "payload", timestamp := 0 }]
        else c6_matched_state.pending_messages) ∧
      st'.matched_endpoints = c6_matched_state.matched_endpoints ∧
      st'.local_writers = c6_matched_state.local_writers :=
  claim_C6_amended c6_matched_state "W1" "payload" 0
    { guid := "W1", topic_name := "t" } 0 rfl rfl

/-! ## Claim C7 -/

/-- C7: the router only ever produces the shared-memory class.  For a
same-node message it returns SHARED_MEMORY; for every other message it
raises AttributeError, because the discovery test evaluates
`MessageType.DISCOVERY` and the `MessageType` enum this module imports
(src/core/message.py) has no such member — the reliable/best-effort
branches are unreachable. -/
theorem claim_C7_router_crashes_on_remote_messages :
    (∀ m : Message, TransportRouter.select_transport m =
      if m.source_node = m.destination_node then .ok .SHARED_MEMORY
      else .error .attributeError) ∧
    TransportRouter.select_transport
      { source_node := "nodeA", destination_node := "nodeB",
        type := .DATA, qos_profile := some {} } = .error .attributeError := by
  constructor
  · intro m
    by_cases h : m.source_node = m.destination_node
    · rw [if_pos h]
      unfold TransportRouter.select_transport
      rw [if_pos h]
      rfl
    · rw [if_neg h]
      unfold TransportRouter.select_transport
      rw [if_neg h]
      rfl
  · rfl

/-! ## Claim C8 -/

/-- A profile with all three durations finite (well-formed, positive). -/
def c8_finite_profile : QoSProfile :=
  { deadline := some 5, lifespan := some 7, liveliness_lease_duration := some 9 }

/-- C8: `check_compatibility` never returns a result at all — for every
pair of profiles it raises: TypeError at the deadline or lifespan
comparison when a duration is `None` (the well-formed default), and
otherwise AttributeError while building the liveliness level dict, whose
literal names the nonexistent member
`QoSLivelinessPolicy.MANUAL_BY_PARTICIPANT`.  In particular
`check(p, p)` is never `compatible = true`: on the default profile it
raises TypeError, on an all-finite profile AttributeError. -/
theorem claim_C8_checker_always_raises :
    (∀ p q : QoSProfile, ∃ e,
      QoSCompatibilityChecker.check_compatibility p q = .error e) ∧
    QoSCompatibilityChecker.check_compatibility {} {} = .error .typeError ∧
    QoSCompatibilityChecker.check_compatibility c8_finite_profile
      c8_finite_profile = .error .attributeError := by
  refine ⟨?_, rfl, rfl⟩
  intro p q
  obtain ⟨prel, pdur, phist, pdepth, plive, pown, pdl, pls, plld⟩ := p
  obtain ⟨qrel, qdur, qhist, qdepth, qlive, qown, qdl, qls, qlld⟩ := q
  rcases pdl with _ | a <;> rcases qdl with _ | b <;>
    rcases pls with _ | c <;> rcases qls with _ | d <;>
    first
      | exact ⟨.typeError, rfl⟩
      | exact ⟨.attributeError, rfl⟩

/-! ## Claim C9 -/

/-- The participant configuration with the defaults of
src/simulation/config.py: discovery period 0.1 s, heartbeat 0.1 s. -/
def c9_cfg : ParticipantCfg := { participant_guid := "P0" }

/-- An active participant state with both timers last fired at time 0 and
no pending messages. -/
def c9_state : ParticipantState := { phase := .active }

/-- C9: `timeAdvance` is not a pure function of the state.  It reads the
wall clock — on the same state it returns 0.1 when called at clock time 0
but 0.001 when called at clock time 1 — and it mutates the state: the
call at clock time 1 flips the phase from `active` to `discovering`,
while the call at time 0 leaves the state unchanged. -/
theorem claim_C9_timeAdvance_impure :
    (DDSParticipant.timeAdvance c9_cfg c9_state 0).1 = .fin (1 / 10) ∧
    (DDSParticipant.timeAdvance c9_cfg c9_state 1).1 = .fin (1 / 1000) ∧
    (DDSParticipant.timeAdvance c9_cfg c9_state 0).2 = c9_state ∧
    (DDSParticipant.timeAdvance c9_cfg c9_state 1).2.phase = .discovering ∧
    c9_state.phase = .active := by
  refine ⟨?_, ?_, ?_, ?_, rfl⟩ <;>
    norm_num [DDSParticipant.timeAdvance, c9_cfg, c9_state]

/-! ## Claim C10: invariant lemmas for the discovery database -/

/-- The invariant claimed for the topic cache: no topic is mapped to an
empty endpoint set. -/
def cacheNonempty (db : DiscoveryDatabase) : Prop :=
  ∀ p ∈ db.topic_cache, p.2 ≠ []

theorem cacheNonempty_add_participant (db : DiscoveryDatabase)
    (info : ParticipantInfo) (h : cacheNonempty db) :
    cacheNonempty (db.add_participant info) :=
  fun p hp => h p hp

theorem cacheNonempty_add_endpoint (db : DiscoveryDatabase)
    (info : EndpointInfo) (h : cacheNonempty db) :
    cacheNonempty (db.add_endpoint info) := by
  intro p hp
  rcases mem_of_mem_aset hp with h' | h'
  · subst h'
    by_cases hm : info.guid ∈ (alookup db.topic_cache info.topic).getD []
    · show (if _ then _ else _) ≠ []
      rw [if_pos hm]
      exact List.ne_nil_of_mem hm
    · show (if _ then _ else _) ≠ []
      rw [if_neg hm]
      exact fun hcontra => List.cons_ne_nil _ _ (List.append_eq_nil.mp hcontra).2
  · exact h p h'

theorem cacheNonempty_remove_endpoint (db : DiscoveryDatabase)
    (guid : String) (h : cacheNonempty db) :
    cacheNonempty (db.remove_endpoint guid) := by
  unfold DiscoveryDatabase.remove_endpoint
  split
  · exact h
  · split
    · exact fun p hp => h p hp
    · dsimp only
      split
      · exact fun p hp => h p (mem_of_mem_aerase hp)
      · next s hs =>
          intro p hp
          rcases mem_of_mem_aset hp with h' | h'
          · subst h'
            exact hs
          · exact h p h'

/-- Any predicate preserved by a step is preserved by a fold of steps. -/
theorem foldl_preserves {β : Type} {P : DiscoveryDatabase → Prop}
    (f : DiscoveryDatabase → β → DiscoveryDatabase)
    (hf : ∀ db b, P db → P (f db b)) :
    ∀ (xs : List β) (db : DiscoveryDatabase), P db → P (xs.foldl f db) := by
  intro xs
  induction xs with
  | nil => exact fun db h => h
  | cons x xs ih => exact fun db h => ih (f db x) (hf db x h)

theorem cacheNonempty_remove_participant (db : DiscoveryDatabase)
    (guid : String) (h : cacheNonempty db) :
    cacheNonempty (db.remove_participant guid) := by
  unfold DiscoveryDatabase.remove_participant
  refine foldl_preserves DiscoveryDatabase.remove_endpoint
    (fun db' g h' => cacheNonempty_remove_endpoint db' g h') _ _ ?_
  by_cases hp : (alookup db.participants guid).isSome
  · rw [if_pos hp]
    exact fun p hp' => h p hp'
  · rw [if_neg hp]
    exact h

theorem cacheNonempty_cleanup_expired (db : DiscoveryDatabase)
    (now : ℚ) (h : cacheNonempty db) :
    cacheNonempty (db.cleanup_expired now) :=
  foldl_preserves DiscoveryDatabase.remove_participant
    (fun db' g h' => cacheNonempty_remove_participant db' g h') _ db h

theorem cacheNonempty_applyOp (db : DiscoveryDatabase) (op : DbOp)
    (h : cacheNonempty db) : cacheNonempty (db.applyOp op) := by
  cases op with
  | addP info => exact cacheNonempty_add_participant db info h
  | addE info => exact cacheNonempty_add_endpoint db info h
  | remE guid => exact cacheNonempty_remove_endpoint db guid h
  | remP guid => exact cacheNonempty_remove_participant db guid h
  | sweep now => exact cacheNonempty_cleanup_expired db now h

/-- `remove_endpoint` never touches the participants registry. -/
theorem remove_endpoint_participants (db : DiscoveryDatabase) (guid : String) :
    (db.remove_endpoint guid).participants = db.participants := by
  unfold DiscoveryDatabase.remove_endpoint
  split
  · rfl
  · split
    · rfl
    · dsimp only
      split
      · rfl
      · rfl

theorem fold_remove_endpoint_participants (ks : List String)
    (db : DiscoveryDatabase) :
    (ks.foldl DiscoveryDatabase.remove_endpoint db).participants =
      db.participants := by
  induction ks generalizing db with
  | nil => rfl
  | cons k ks ih => rw [List.foldl_cons, ih, remove_endpoint_participants]

/-- An endpoint entry surviving `remove_endpoint` was already present. -/
theorem mem_endpoints_remove_endpoint {q : String × EndpointInfo}
    (db : DiscoveryDatabase) (guid : String)
    (h : q ∈ (db.remove_endpoint guid).endpoints) : q ∈ db.endpoints := by
  unfold DiscoveryDatabase.remove_endpoint at h
  split at h
  · exact h
  · split at h
    · exact mem_of_mem_aerase h
    · dsimp only at h
      split at h
      · exact mem_of_mem_aerase h
      · exact mem_of_mem_aerase h

theorem mem_endpoints_fold_remove {q : String × EndpointInfo}
    (ks : List String) (db : DiscoveryDatabase)
    (h : q ∈ (ks.foldl DiscoveryDatabase.remove_endpoint db).endpoints) :
    q ∈ db.endpoints := by
  induction ks generalizing db with
  | nil => exact h
  | cons k ks ih =>
    rw [List.foldl_cons] at h
    exact mem_endpoints_remove_endpoint db k (ih _ h)

/-- After `remove_endpoint db g`, no endpoint entry is stored under `g`. -/
theorem remove_endpoint_lookup_self (db : DiscoveryDatabase) (g : String) :
    alookup (db.remove_endpoint g).endpoints g = none := by
  unfold DiscoveryDatabase.remove_endpoint
  split
  · next heq => exact heq
  · split
    · exact alookup_aerase_self _ _
    · dsimp only
      split
      · exact alookup_aerase_self _ _
      · exact alookup_aerase_self _ _

/-- `remove_endpoint` introduces no endpoint entries. -/
theorem remove_endpoint_lookup_none (db : DiscoveryDatabase) (g k : String)
    (h : alookup db.endpoints k = none) :
    alookup (db.remove_endpoint g).endpoints k = none := by
  unfold DiscoveryDatabase.remove_endpoint
  split
  · exact h
  · split
    · exact alookup_aerase_of_none h
    · dsimp only
      split
      · exact alookup_aerase_of_none h
      · exact alookup_aerase_of_none h

theorem fold_remove_endpoint_lookup_none (ks : List String)
    (db : DiscoveryDatabase) (k : String)
    (h : alookup db.endpoints k = none) :
    alookup ((ks.foldl DiscoveryDatabase.remove_endpoint db).endpoints) k =
      none := by
  induction ks generalizing db with
  | nil => exact h
  | cons a ks ih =>
    rw [List.foldl_cons]
    exact ih _ (remove_endpoint_lookup_none db a k h)

theorem fold_remove_endpoint_clears (ks : List String)
    (db : DiscoveryDatabase) (k : String) (hk : k ∈ ks) :
    alookup ((ks.foldl DiscoveryDatabase.remove_endpoint db).endpoints) k =
      none := by
  induction ks generalizing db with
  | nil => simp at hk
  | cons a ks ih =>
    rw [List.foldl_cons]
    by_cases hka : k = a
    · subst hka
      exact fold_remove_endpoint_lookup_none ks _ k
        (remove_endpoint_lookup_self db k)
    · exact ih (db.remove_endpoint a) ((List.mem_cons.mp hk).resolve_left hka)

/-- Folding `remove_endpoint` over the keys of exactly the endpoints
marked with `participant_guid = g` leaves no endpoint so marked. -/
theorem fold_remove_all_marked (db1 : DiscoveryDatabase) (g : String) :
    ∀ q ∈ (((db1.endpoints.filter (fun p => p.2.participant_guid = g)).map
      (fun p => p.1)).foldl DiscoveryDatabase.remove_endpoint db1).endpoints,
      q.2.participant_guid ≠ g := by
  rintro ⟨k, ep⟩ hq hpg
  have hmem := mem_endpoints_fold_remove _ db1 hq
  have hkey : k ∈ (db1.endpoints.filter
      (fun p => p.2.participant_guid = g)).map (fun p => p.1) :=
    List.mem_map.mpr ⟨(k, ep),
      List.mem_filter.mpr ⟨hmem, by simpa using hpg⟩, rfl⟩
  have hnone := fold_remove_endpoint_clears _ db1 k hkey
  have hsome := alookup_isSome_of_mem hq
  rw [hnone] at hsome
  simp at hsome

/-- `remove_participant db g` removes the participant entry for `g` and
every endpoint entry whose `participant_guid` is `g`, on any database. -/
theorem remove_participant_clears (db : DiscoveryDatabase) (g : String) :
    alookup (db.remove_participant g).participants g = none ∧
    ∀ q ∈ (db.remove_participant g).endpoints, q.2.participant_guid ≠ g := by
  unfold DiscoveryDatabase.remove_participant
  constructor
  · rw [fold_remove_endpoint_participants]
    by_cases hp : (alookup db.participants g).isSome
    · rw [if_pos hp]
      exact alookup_aerase_self _ _
    · rw [if_neg hp]
      exact Option.not_isSome_iff_eq_none.mp hp
  · exact fold_remove_all_marked _ g

/-- C10: in every database reachable by any operation sequence the topic
cache maps no topic to an empty set, and `remove_participant g` leaves
neither a participant entry for `g` nor any endpoint whose
`participant_guid` is `g`. -/
theorem claim_C10_database_invariants :
    ∀ (ops : List DbOp) (g : String),
      (∀ p ∈ (DiscoveryDatabase.runOps ops).topic_cache, p.2 ≠ []) ∧
      alookup ((DiscoveryDatabase.runOps ops).remove_participant
        g).participants g = none ∧
      ∀ q ∈ ((DiscoveryDatabase.runOps ops).remove_participant g).endpoints,
        q.2.participant_guid ≠ g := by
  intro ops g
  refine ⟨?_, (remove_participant_clears _ g).1,
    (remove_participant_clears _ g).2⟩
  unfold DiscoveryDatabase.runOps
  refine foldl_preserves DiscoveryDatabase.applyOp
    (fun db op h => cacheNonempty_applyOp db op h) ops {} ?_
  intro p hp
  simp at hp
